import Mathlib

/-!
Verification of the design-pattern demonstrations in this repository,
as a shallow embedding of the TypeScript sources.  Each section embeds
the data model and operations of one example file and proves the
behavioral contracts stated about it.  Console output is modelled as
the list of lines an operation prints or returns; JavaScript runtime
errors (property access on `undefined`) are modelled with `Except`.
-/

namespace DesignPatterns

/-- The apostrophe character, used in several console strings of the source. -/
def apos : String := String.singleton (Char.ofNat 39)

/-! ## Chain of responsibility (src/Behavioral/chainOfResponsibility.ts, explanation part)

The three concrete handlers `MonkeyHandler`, `SquirrelHandler`, `DogHandler`
each override `handle`: on a matching request they return their success
string; otherwise they call `super.handle`, which forwards to the next
handler when one is set and returns `null` when the chain ends.  After the
wiring `monkey.setNext(squirrel).setNext(dog)` the chain is the list
`[monkey, squirrel, dog]`, which we embed directly. -/

inductive AnimalHandler
  | monkey
  | squirrel
  | dog
deriving DecidableEq, Repr

/-- Each handler's match test (`request === 'Banana'` etc.). -/
def guard : AnimalHandler → String → Bool
  | .monkey, r => r == "Banana"
  | .squirrel, r => r == "Nut"
  | .dog, r => r == "MeatBall"

/-- Each handler's success string, e.g. `Monkey: I'll eat the ${request}.` -/
def response : AnimalHandler → String → String
  | .monkey, r => "Monkey: I" ++ apos ++ "ll eat the " ++ r ++ "."
  | .squirrel, r => "Squirrel: I" ++ apos ++ "ll eat the " ++ r ++ "."
  | .dog, r => "Dog: I" ++ apos ++ "ll eat the " ++ r ++ "."

/-- `handle` on a chain of handlers: the head handles a matching request
itself, otherwise forwards to its successors; an exhausted chain returns
`null` (here `none`), mirroring `AbstractHandler.handle`. -/
def handle : List AnimalHandler → String → Option String
  | [], _ => none
  | h :: rest, r => if guard h r then some (response h r) else handle rest r

/-- `handle` instrumented with the list of handlers whose guard was
consulted during the call, in consultation order. -/
def handleTrace : List AnimalHandler → String → Option String × List AnimalHandler
  | [], _ => (none, [])
  | h :: rest, r =>
      if guard h r then (some (response h r), [h])
      else ((handleTrace rest r).1, h :: (handleTrace rest r).2)

/-- The wired chain `Monkey > Squirrel > Dog`. -/
def theChain : List AnimalHandler := [.monkey, .squirrel, .dog]

/-- The set of requests some handler in the chain can satisfy. -/
def handledSet : List String := ["Banana", "Nut", "MeatBall"]

/-! ## Iterator (src/Behavioral/chainOfResponsibility.ts, iterator part)

`range(start, end, step)` closes over the mutable variable `start`;
`next()` either advances `start` by `step` and returns it with
`done: false`, or, once `start < end` fails, returns the boundary `end`
with `done: true` without changing any state.  The closure state is just
the current value of `start` together with the captured `end` and `step`. -/

structure RangeState where
  start : Int
  stop : Int
  step : Int
deriving DecidableEq, Repr

structure IterResult where
  value : Int
  done : Bool
deriving DecidableEq, Repr

/-- One `next()` call: the new closure state and the returned
`{ value, done }` record.  Every branch returns; nothing throws. -/
def RangeState.next (s : RangeState) : RangeState × IterResult :=
  if s.start < s.stop then
    (⟨s.start + s.step, s.stop, s.step⟩, ⟨s.start + s.step, false⟩)
  else
    (s, ⟨s.stop, true⟩)

/-- `range(start, end, step)`: the iterator's initial closure state. -/
def range (start stop step : Int) : RangeState := ⟨start, stop, step⟩

/-- The closure state after `n` calls to `next()`. -/
def statesAfter (s : RangeState) : Nat → RangeState
  | 0 => s
  | n + 1 => ((statesAfter s n).next).1

/-- The `{ value, done }` record returned by call number `n` (0-based). -/
def outputAt (s : RangeState) (n : Nat) : IterResult := ((statesAfter s n).next).2

/-! ## Buffet chain (src/Behavioral/chainOfResponsibility.ts, example part)

`JapaneseFoodBuffet` and `MexicanFoodBuffet` extend `AbstractBuffet`,
each with its own mutable `menu` array.  The wiring is
`japaneseFoodBuffet.passToNextBuffet(mexicanFoodBuffet)`, so the Japanese
buffet forwards unhandled requests to the Mexican one, which has no
successor and returns `null`.  The guards are transcribed verbatim; as in
the source, `&&` binds tighter than `||`, so the duplicate check
`!this.menu.includes(foodType)` applies only to the second food of each
guard. -/

structure BuffetState where
  japaneseMenu : List String
  mexicanMenu : List String
deriving DecidableEq, Repr

def japaneseSuccess (foodType : String) : String :=
  "JapaneseFoodBuffet: I" ++ apos ++ "ll add the " ++ foodType ++ " to my menu."

def mexicanSuccess (foodType : String) : String :=
  "MexicanFoodBuffet: I" ++ apos ++ "ll add the " ++ foodType ++ " to my menu."

/-- `MexicanFoodBuffet.addToMenu`; its `nextBuffet` is unset, so the
`super.addToMenu` fallback returns `null`. -/
def mexicanAddToMenu (st : BuffetState) (foodType : String) :
    BuffetState × Option String :=
  if foodType == "Tacos" || foodType == "Enchiladas" && !(st.mexicanMenu.contains foodType) then
    (⟨st.japaneseMenu, st.mexicanMenu ++ [foodType]⟩, some (mexicanSuccess foodType))
  else
    (st, none)

/-- `JapaneseFoodBuffet.addToMenu`; its `nextBuffet` is the Mexican buffet,
so the `super.addToMenu` fallback forwards there. -/
def japaneseAddToMenu (st : BuffetState) (foodType : String) :
    BuffetState × Option String :=
  if foodType == "Sushi" || foodType == "Yakimeshi" && !(st.japaneseMenu.contains foodType) then
    (⟨st.japaneseMenu ++ [foodType], st.mexicanMenu⟩, some (japaneseSuccess foodType))
  else
    mexicanAddToMenu st foodType

/-! ## Command (src/Behavioral/chainOfResponsibility.ts, command part)

The `Invoker` holds two command slots, `onStart` and `onFinish`, each
possibly left unset (`undefined`); `SalesDepartment` likewise holds
`receiveItems` and `sendItem`.  The guard `isCommand(object)` evaluates
`object.execute !== undefined` (respectively
`adminAction.performAdministrativeAction !== undefined`): when the slot is
`undefined`, that property access itself throws a `TypeError` at runtime.
We model a command object by the list of console lines its `execute`
method prints, an optionally-set slot by `Option`, a JavaScript runtime
error by `Except`, and an operation's result by the lines it prints. -/

inductive JsError
  | typeError
deriving DecidableEq, Repr

/-- A value implementing the `Command` interface: every such object
defines `execute`, recorded here by the console lines `execute()` prints. -/
structure Command where
  executeOutput : List String
deriving DecidableEq, Repr

/-- `SimpleCommand(payload)`. -/
def SimpleCommand (payload : String) : Command :=
  ⟨["SimpleCommand: See, I can do simple things like printing (" ++ payload ++ ")"]⟩

/-- `Receiver.doSomething(a)`'s console output. -/
def receiverDoSomething (a : String) : List String :=
  ["Receiver: Working on (" ++ a ++ ".)"]

/-- `Receiver.doSomethingElse(b)`'s console output. -/
def receiverDoSomethingElse (b : String) : List String :=
  ["Receiver: Also working on (" ++ b ++ ".)"]

/-- `ComplexCommand(receiver, a, b)`: `execute` delegates to the receiver. -/
def ComplexCommand (a b : String) : Command :=
  ⟨"ComplexCommand: Complex stuff should be done by a receiver object." ::
    (receiverDoSomething a ++ receiverDoSomethingElse b)⟩

/-- `Invoker.isCommand(object)`: evaluates `object.execute !== undefined`.
On an unset slot (`undefined`) the property access throws a `TypeError`;
on any object implementing `Command`, `execute` is defined, so the check
yields `true`. -/
def isCommand : Option Command → Except JsError Bool
  | none => .error .typeError
  | some _ => .ok true

structure Invoker where
  onStart : Option Command
  onFinish : Option Command
deriving DecidableEq, Repr

/-- `if (this.isCommand(slot)) { slot.execute(); }`: the lines printed by
one guarded slot invocation, or the error the guard throws. -/
def execSlot (slot : Option Command) : Except JsError (List String) := do
  let b ← isCommand slot
  if b then
    match slot with
    | some c => pure c.executeOutput
    | none => pure []
  else
    pure []

/-- `Invoker.doSomethingImportant()`: the full console transcript, or the
`TypeError` raised when a slot guard dereferences an unset slot. -/
def Invoker.doSomethingImportant (inv : Invoker) : Except JsError (List String) := do
  let s ← execSlot inv.onStart
  let f ← execSlot inv.onFinish
  pure (["Invoker: Does anybody want something done before I begin?"] ++ s ++
    ["Invoker: ...doing something really important...",
     "Invoker: Does anybody want something done after I finish?"] ++ f)

/-- A value implementing `AdministrativeAction`, recorded by the console
lines its `performAdministrativeAction` method prints. -/
structure AdministrativeAction where
  performOutput : List String
deriving DecidableEq, Repr

/-- `SendItem(client, clientSpecificActions, clientAddress)`: the transcript
of `performAdministrativeAction` (the template string `${this.client}`
stringifies the client object as `[object Object]`). -/
def SendItem (clientSpecificActions : List String) (clientAddress : String) :
    AdministrativeAction :=
  ⟨["ComplexCommand: Complex stuff should be done by a client object."] ++
    clientSpecificActions.map (fun action => "Action: " ++ action ++ " has been performed") ++
    ["Client with address " ++ clientAddress ++ " has been notified about the delivery",
     "Sending Item...",
     "Item has been sent to client: [object Object]"]⟩

/-- `SalesDepartment.isCommand(adminAction)`: evaluates
`adminAction.performAdministrativeAction !== undefined`, throwing a
`TypeError` when the slot is unset. -/
def isAdminAction : Option AdministrativeAction → Except JsError Bool
  | none => .error .typeError
  | some _ => .ok true

structure SalesDepartment where
  receiveItems : Option AdministrativeAction
  sendItem : Option AdministrativeAction
deriving DecidableEq, Repr

/-- One guarded slot invocation of `SalesDepartment`. -/
def execAdminSlot (slot : Option AdministrativeAction) :
    Except JsError (List String) := do
  let b ← isAdminAction slot
  if b then
    match slot with
    | some a => pure a.performOutput
    | none => pure []
  else
    pure []

/-- `SalesDepartment.receiveABunchOfItems()`. -/
def SalesDepartment.receiveABunchOfItems (d : SalesDepartment) :
    Except JsError (List String) :=
  execAdminSlot d.receiveItems

/-- `SalesDepartment.sendAnItem()`. -/
def SalesDepartment.sendAnItem (d : SalesDepartment) :
    Except JsError (List String) :=
  execAdminSlot d.sendItem

/-- The `salesDepartment` state built by the driver: `setReceiveItems` is
called twice (second time with the `SendItem` command), and `setSendItem`
is never called, leaving the `sendItem` slot unset. -/
def driverSalesDepartment : SalesDepartment :=
  ⟨some (SendItem ["Notify through Email", "Add special gift card"] "Some Address in NY"),
   none⟩

/-! ## Template method (src/Behavioral/observer.ts, template-method part)

`AbstractClass.templateMethod` runs the seven steps in a fixed order; the
three base operations have fixed bodies, the two required operations are
abstract (every concrete subclass must supply them), and the two hooks
default to a no-op.  A concrete subclass is therefore determined by the
console output of its required operations and hooks; an unoverridden hook
contributes the base class's empty output. -/

structure AbstractClass where
  requiredOperations1 : List String
  requiredOperation2 : List String
  hook1 : List String
  hook2 : List String
deriving DecidableEq, Repr

def baseOperation1 : List String :=
  ["AbstractClass says: I am doing the bulk of the work"]

def baseOperation2 : List String :=
  ["AbstractClass says: But I let subclasses override some operations"]

def baseOperation3 : List String :=
  ["AbstractClass says: But I am doing the bulk of the work anyway"]

/-- `templateMethod()`: the skeleton defined once on the abstract class;
its step order is the same for every concrete subclass. -/
def templateMethod (c : AbstractClass) : List String :=
  baseOperation1 ++ c.requiredOperations1 ++ baseOperation2 ++ c.hook1 ++
    c.requiredOperation2 ++ baseOperation3 ++ c.hook2

/-- `ConcreteClass1`: overrides only the two required operations. -/
def ConcreteClass1 : AbstractClass :=
  ⟨["ConcreteClass1 says: Implemented Operation1"],
   ["ConcreteClass1 says: Implemented Operation2"],
   [], []⟩

/-- `ConcreteClass2`: overrides the required operations and `hook1`. -/
def ConcreteClass2 : AbstractClass :=
  ⟨["ConcreteClass2 says: Implemented Operation1"],
   ["ConcreteClass2 says: Implemented Operation2"],
   ["ConcreteClass2 says: Overridden Hook1"],
   []⟩

/-! ## Factory (src/Creational/factory.ts)

`ButtonFactory.createButton(os)` returns `new IOSButton()` when
`os === 'ios'` and `new AndroidButton()` on the `else` branch; its return
type is `IOSButton | AndroidButton` and every path returns a constructed
object, never `null`. -/

inductive Button
  | IOSButton
  | AndroidButton
deriving DecidableEq, Repr

def ButtonFactory.createButton (os : String) : Button :=
  if os == "ios" then .IOSButton else .AndroidButton

/-! ## Singleton (src/unnamed/part_000)

`ApplicationSettings` has a private constructor, so the only code path that
can construct an instance is `getInstance`, which stores the instance in
the static field on first call and returns the stored instance afterwards.
We model the static field as an `Option`-valued process state together
with a count of constructor invocations, so distinct constructions would
carry distinct `allocId`s; the only state transition available to any
program is `getInstance` (the constructor being private). -/

structure ApplicationSettings where
  applicationTheme : String
  allocId : Nat
deriving DecidableEq, Repr

structure SingletonState where
  instanceField : Option ApplicationSettings
  allocations : Nat
deriving DecidableEq, Repr

/-- The process state before any call: the static field is `undefined`. -/
def initialSingletonState : SingletonState := ⟨none, 0⟩

/-- `ApplicationSettings.getInstance()`: constructs and caches on first
call, returns the cached instance afterwards. -/
def getInstance (st : SingletonState) : SingletonState × ApplicationSettings :=
  match st.instanceField with
  | none => (⟨some ⟨"dark", st.allocations⟩, st.allocations + 1⟩, ⟨"dark", st.allocations⟩)
  | some inst => (st, inst)

/-- The process state after `n` successive `getInstance()` calls — the only
operation a program can perform on this class. -/
def singletonStates : Nat → SingletonState
  | 0 => initialSingletonState
  | n + 1 => (getInstance (singletonStates n)).1

/-- The instance returned by call number `n` (0-based). -/
def instanceReturnedAt (n : Nat) : ApplicationSettings :=
  (getInstance (singletonStates n)).2

/-! ## Flyweight (src/unnamed/part_002)

`FlyweightFactory` keys its cache by `getKey(state) = state.join('_')`.
`getFlyweight` returns the cached instance when the key is present,
otherwise constructs a `Flyweight` holding the requested shared state,
caches it under the key, and returns it.  Object identity is modelled by
tagging each constructed `Flyweight` with a fresh allocation id, and the
JavaScript object used as cache by an association list with unique keys
(property insertion appends a new key; `cacheSize` is
`Object.keys(...).length`). -/

structure Flyweight where
  sharedState : List String
  allocId : Nat
deriving DecidableEq, Repr

structure FlyweightFactory where
  flyweights : List (String × Flyweight)
  nextAllocId : Nat
deriving DecidableEq, Repr

/-- `getKey(state)`: `state.join('_')`. -/
def getKey (state : List String) : String := String.intercalate "_" state

/-- `Object.keys(this.flyweights).length`. -/
def cacheSize (f : FlyweightFactory) : Nat := f.flyweights.length

/-- `getFlyweight(sharedState)`: the updated factory and the returned
instance. -/
def getFlyweight (f : FlyweightFactory) (sharedState : List String) :
    FlyweightFactory × Flyweight :=
  match f.flyweights.lookup (getKey sharedState) with
  | some fw => (f, fw)
  | none =>
      (⟨f.flyweights ++ [(getKey sharedState, ⟨sharedState, f.nextAllocId⟩)],
        f.nextAllocId + 1⟩,
       ⟨sharedState, f.nextAllocId⟩)

/-- `new FlyweightFactory([])`: a factory with an empty cache. -/
def emptyFlyweightFactory : FlyweightFactory := ⟨[], 0⟩

/-! ### Theorems -/

/-- C2: for the chain Monkey > Squirrel > Dog and every request string `R`:
if `R` is in the handled set, `handle` on the chain head returns the success
string of exactly the first handler (in chain order) whose guard matches
`R`, and the handlers consulted are exactly the chain up to and including
that handler (no later handler is consulted); if `R` is outside the handled
set, every handler forwards and the head's `handle` returns `null`; and no
handler is consulted twice in one call. -/
theorem chain_first_match_wins (R : String) :
    (R ∈ handledSet →
      ∃ i : Nat, ∃ hi : i < theChain.length,
        guard (theChain.get ⟨i, hi⟩) R = true ∧
        (∀ j : Nat, ∀ hj : j < theChain.length, j < i →
          guard (theChain.get ⟨j, hj⟩) R = false) ∧
        handle theChain R = some (response (theChain.get ⟨i, hi⟩) R) ∧
        (handleTrace theChain R).2 = theChain.take (i + 1)) ∧
    (R ∉ handledSet →
      handle theChain R = none ∧ (handleTrace theChain R).2 = theChain) ∧
    (handleTrace theChain R).2.Nodup := by
  by_cases hB : R = "Banana"
  · subst hB
    refine ⟨fun _ => ⟨0, by decide, by decide, ?_, by decide, by decide⟩,
      fun h => absurd (by decide) h, by decide⟩
    intro j hj hlt
    omega
  by_cases hN : R = "Nut"
  · subst hN
    refine ⟨fun _ => ⟨1, by decide, by decide, ?_, by decide, by decide⟩,
      fun h => absurd (by decide) h, by decide⟩
    intro j hj hlt
    have hj0 : j = 0 := by omega
    subst hj0
    rfl
  by_cases hM : R = "MeatBall"
  · subst hM
    refine ⟨fun _ => ⟨2, by decide, by decide, ?_, by decide, by decide⟩,
      fun h => absurd (by decide) h, by decide⟩
    intro j hj hlt
    match j with
    | 0 => rfl
    | 1 => rfl
  · have gm : guard .monkey R = false := by
      simp [guard, hB]
    have gs : guard .squirrel R = false := by
      simp [guard, hN]
    have gd : guard .dog R = false := by
      simp [guard, hM]
    refine ⟨fun h => ?_, fun _ => ?_, ?_⟩
    · simp [handledSet] at h
      rcases h with h | h | h <;> simp_all
    · constructor
      · simp [theChain, handle, gm, gs, gd]
      · simp [theChain, handleTrace, gm, gs, gd]
    · have ht : (handleTrace theChain R).2 = theChain := by
        simp [theChain, handleTrace, gm, gs, gd]
      rw [ht]
      decide

/-- Witness for C2: the request "Nut" is in the handled set and is answered
by the first matching handler, the squirrel. -/
theorem chain_first_match_wins_witness :
    ("Nut" ∈ handledSet) ∧
    (∃ i : Nat, ∃ hi : i < theChain.length,
        guard (theChain.get ⟨i, hi⟩) "Nut" = true ∧
        (∀ j : Nat, ∀ hj : j < theChain.length, j < i →
          guard (theChain.get ⟨j, hj⟩) "Nut" = false) ∧
        handle theChain "Nut" = some (response (theChain.get ⟨i, hi⟩) "Nut") ∧
        (handleTrace theChain "Nut").2 = theChain.take (i + 1)) :=
  ⟨by decide, (chain_first_match_wins "Nut").1 (by decide)⟩

/-- Helper for C3: from the fifth call on, the closure state of
`range(0, 20, 5)` is stuck at `start = 20`. -/
theorem statesAfter_range_0_20_5_stuck (n : Nat) (h : 4 ≤ n) :
    statesAfter (range 0 20 5) n = ⟨20, 20, 5⟩ := by
  induction n with
  | zero => omega
  | succ m ih =>
      rcases Nat.lt_or_ge m 4 with hm | hm
      · have hm4 : m = 3 := by omega
        subst hm4
        decide
      · have := ih hm
        simp [statesAfter, this]
        decide

/-- C3: the iterator `range(0, 20, 5)` returns, over successive `next()`
calls, exactly the values 5, 10, 15, 20 with `done = false`, and every call
from the fifth on returns `done = true` with value 20 (idempotent
exhaustion: the iterator never restarts). -/
theorem range_0_20_5_sequence :
    outputAt (range 0 20 5) 0 = ⟨5, false⟩ ∧
    outputAt (range 0 20 5) 1 = ⟨10, false⟩ ∧
    outputAt (range 0 20 5) 2 = ⟨15, false⟩ ∧
    outputAt (range 0 20 5) 3 = ⟨20, false⟩ ∧
    (∀ n : Nat, 4 ≤ n → outputAt (range 0 20 5) n = ⟨20, true⟩) := by
  refine ⟨by decide, by decide, by decide, by decide, fun n hn => ?_⟩
  unfold outputAt
  rw [statesAfter_range_0_20_5_stuck n hn]
  decide

/-- Witness for C3: the sixth call still reports exhaustion. -/
theorem range_0_20_5_sequence_witness :
    (4 : Nat) ≤ 5 ∧ outputAt (range 0 20 5) 5 = ⟨20, true⟩ :=
  ⟨by decide, range_0_20_5_sequence.2.2.2.2 5 (by decide)⟩

/-- C4: for every `start`, `end`, `step` with `start >= end`, the first
`next()` call returns `done = true` together with the boundary value `end`
(and, the embedding being a total function, does not throw); the closure
state is left unchanged. -/
theorem range_first_next_exhausted (start stop step : Int) (h : stop ≤ start) :
    (range start stop step).next = (range start stop step, ⟨stop, true⟩) := by
  unfold range RangeState.next
  simp [Int.not_lt.mpr h]

/-- Witness for C4: `range(5, 3, 1)` is exhausted on its first call. -/
theorem range_first_next_exhausted_witness :
    (3 : Int) ≤ 5 ∧ (range 5 3 1).next = (range 5 3 1, ⟨3, true⟩) :=
  ⟨by decide, range_first_next_exhausted 5 3 1 (by decide)⟩

/-- C1 (failing input): invoking an operation whose command slot was never
set does NOT complete silently: the guard `isCommand` dereferences the
unset (`undefined`) slot and throws a `TypeError`.  This contradicts the
guard's own purpose — it exists precisely to tolerate an absent slot — and
the repository's driver itself hits it: `setSendItem` is never called (the
driver calls `setReceiveItems` twice), so `salesDepartment.sendAnItem()`
throws while `receiveABunchOfItems()` succeeds. -/
theorem unset_command_slot_throws :
    Invoker.doSomethingImportant ⟨none, some (SimpleCommand "Say Hi!")⟩ =
      .error .typeError ∧
    Invoker.doSomethingImportant ⟨some (SimpleCommand "Say Hi!"), none⟩ =
      .error .typeError ∧
    driverSalesDepartment.sendAnItem = .error .typeError ∧
    driverSalesDepartment.receiveABunchOfItems =
      .ok (SendItem ["Notify through Email", "Add special gift card"]
        "Some Address in NY").performOutput := by
  refine ⟨rfl, rfl, rfl, rfl⟩

/-- C9: in the buffet chain the duplicate-menu guard applies only to the
second food of each handler, because `&&` binds tighter than `||`:
`addToMenu('Sushi')` always pushes 'Sushi' and returns the success string,
even when 'Sushi' is already on the menu (likewise 'Tacos' for the Mexican
buffet), while 'Yakimeshi' and 'Enchiladas' are added only when not already
present (otherwise the request is forwarded and ends `null`). -/
theorem buffet_duplicate_guard (st : BuffetState) :
    japaneseAddToMenu st "Sushi" =
      (⟨st.japaneseMenu ++ ["Sushi"], st.mexicanMenu⟩, some (japaneseSuccess "Sushi")) ∧
    (st.japaneseMenu.contains "Yakimeshi" = false →
      japaneseAddToMenu st "Yakimeshi" =
        (⟨st.japaneseMenu ++ ["Yakimeshi"], st.mexicanMenu⟩,
          some (japaneseSuccess "Yakimeshi"))) ∧
    (st.japaneseMenu.contains "Yakimeshi" = true →
      japaneseAddToMenu st "Yakimeshi" = (st, none)) ∧
    mexicanAddToMenu st "Tacos" =
      (⟨st.japaneseMenu, st.mexicanMenu ++ ["Tacos"]⟩, some (mexicanSuccess "Tacos")) ∧
    (st.mexicanMenu.contains "Enchiladas" = false →
      mexicanAddToMenu st "Enchiladas" =
        (⟨st.japaneseMenu, st.mexicanMenu ++ ["Enchiladas"]⟩,
          some (mexicanSuccess "Enchiladas"))) ∧
    (st.mexicanMenu.contains "Enchiladas" = true →
      mexicanAddToMenu st "Enchiladas" = (st, none)) := by
  refine ⟨?_, fun h => ?_, fun h => ?_, ?_, fun h => ?_, fun h => ?_⟩
  · simp [japaneseAddToMenu]
  · have h' : "Yakimeshi" ∉ st.japaneseMenu := by simpa using h
    simp [japaneseAddToMenu, h']
  · have h' : "Yakimeshi" ∈ st.japaneseMenu := by simpa using h
    simp [japaneseAddToMenu, h', mexicanAddToMenu]
  · simp [mexicanAddToMenu]
  · have h' : "Enchiladas" ∉ st.mexicanMenu := by simpa using h
    simp [mexicanAddToMenu, h']
  · have h' : "Enchiladas" ∈ st.mexicanMenu := by simpa using h
    simp [mexicanAddToMenu, h']

/-- Witness for C9: with 'Yakimeshi' already on the Japanese menu the
request is forwarded and ends `null`, while a duplicate 'Sushi' is still
pushed. -/
theorem buffet_duplicate_guard_witness :
    ((⟨["Sushi", "Yakimeshi"], []⟩ : BuffetState).japaneseMenu.contains "Yakimeshi" = true) ∧
    japaneseAddToMenu ⟨["Sushi", "Yakimeshi"], []⟩ "Yakimeshi" =
      (⟨["Sushi", "Yakimeshi"], []⟩, none) ∧
    japaneseAddToMenu ⟨["Sushi", "Yakimeshi"], []⟩ "Sushi" =
      (⟨["Sushi", "Yakimeshi", "Sushi"], []⟩, some (japaneseSuccess "Sushi")) :=
  ⟨by decide,
   (buffet_duplicate_guard ⟨["Sushi", "Yakimeshi"], []⟩).2.2.1 (by decide),
   (buffet_duplicate_guard ⟨["Sushi", "Yakimeshi"], []⟩).1⟩

/-- Helper: looking a key up in an appended association list skips a
left part that does not contain it. -/
theorem lookup_append_of_none {β : Type} {l1 l2 : List (String × β)} {k : String}
    (h : l1.lookup k = none) : (l1 ++ l2).lookup k = l2.lookup k := by
  induction l1 with
  | nil => simp
  | cons p t ih =>
      cases p with
      | mk a b =>
          cases hk : (k == a) with
          | true => simp [List.lookup, hk] at h
          | false =>
              simp only [List.lookup, hk] at h
              simp only [List.cons_append, List.lookup, hk]
              exact ih h

/-- C5: for every factory state and shared state, a second `getFlyweight`
call with value-equal `sharedState` returns the identical cached instance
(same allocation), and a single call grows the cache by exactly one when
the computed key is absent and leaves it unchanged when the key is
present. -/
theorem getFlyweight_value_sharing (f : FlyweightFactory) (s : List String) :
    (getFlyweight (getFlyweight f s).1 s).2 = (getFlyweight f s).2 ∧
    (f.flyweights.lookup (getKey s) = none →
      cacheSize (getFlyweight f s).1 = cacheSize f + 1) ∧
    (f.flyweights.lookup (getKey s) ≠ none →
      cacheSize (getFlyweight f s).1 = cacheSize f) := by
  cases hl : f.flyweights.lookup (getKey s) with
  | some fw =>
      refine ⟨?_, fun h => Option.noConfusion h, fun _ => ?_⟩
      · simp [getFlyweight, hl]
      · simp [getFlyweight, hl]
  | none =>
      have hsecond :
          (f.flyweights ++
            [(getKey s, (⟨s, f.nextAllocId⟩ : Flyweight))]).lookup (getKey s) =
            some (⟨s, f.nextAllocId⟩ : Flyweight) := by
        rw [lookup_append_of_none hl]
        simp [List.lookup]
      refine ⟨?_, fun _ => ?_, fun h => absurd rfl h⟩
      · simp [getFlyweight, hl, hsecond]
      · simp [getFlyweight, hl, cacheSize]

/-- Witness for C5: on the empty factory, the key of `["BMW","X1","red"]`
is absent, so the call caches one new instance; the repeated call returns
the identical instance. -/
theorem getFlyweight_value_sharing_witness :
    emptyFlyweightFactory.flyweights.lookup (getKey ["BMW", "X1", "red"]) = none ∧
    cacheSize (getFlyweight emptyFlyweightFactory ["BMW", "X1", "red"]).1 =
      cacheSize emptyFlyweightFactory + 1 ∧
    (getFlyweight (getFlyweight emptyFlyweightFactory ["BMW", "X1", "red"]).1
      ["BMW", "X1", "red"]).2 =
      (getFlyweight emptyFlyweightFactory ["BMW", "X1", "red"]).2 :=
  ⟨rfl,
   (getFlyweight_value_sharing emptyFlyweightFactory ["BMW", "X1", "red"]).2.1 rfl,
   (getFlyweight_value_sharing emptyFlyweightFactory ["BMW", "X1", "red"]).1⟩

/-- C10: the cache key `getKey(state) = state.join('_')` is not injective:
`["a","b_c"]` and `["a_b","c"]` are value-distinct shared states with the
same key, so `getFlyweight` for the second returns the instance cached for
the first, whose stored `sharedState` equals only the first request. -/
theorem getKey_not_injective :
    getKey ["a", "b_c"] = getKey ["a_b", "c"] ∧
    (["a", "b_c"] : List String) ≠ ["a_b", "c"] ∧
    (getFlyweight (getFlyweight emptyFlyweightFactory ["a", "b_c"]).1 ["a_b", "c"]).2 =
      (getFlyweight emptyFlyweightFactory ["a", "b_c"]).2 ∧
    ((getFlyweight (getFlyweight emptyFlyweightFactory ["a", "b_c"]).1
      ["a_b", "c"]).2).sharedState = ["a", "b_c"] ∧
    ((getFlyweight (getFlyweight emptyFlyweightFactory ["a", "b_c"]).1
      ["a_b", "c"]).2).sharedState ≠ ["a_b", "c"] := by
  refine ⟨rfl, by decide, rfl, rfl, by decide⟩

/-- Helper for C6: from the first call on, the static field holds the one
instance constructed by allocation 0 and no further allocation happens. -/
theorem singletonStates_stable (n : Nat) (h : 1 ≤ n) :
    singletonStates n = ⟨some ⟨"dark", 0⟩, 1⟩ := by
  induction n with
  | zero => omega
  | succ m ih =>
      rcases Nat.lt_or_ge m 1 with hm | hm
      · have hm0 : m = 0 := by omega
        subst hm0
        rfl
      · have hs := ih hm
        simp [singletonStates, hs, getInstance]

/-- C6: `getInstance()` constructs the instance on its first call and
returns the cached instance afterwards: every call in the process returns
the identical (first-allocated) instance, any two calls return the same
instance, and no process state ever records more than one construction —
the constructor being private, `getInstance` is the only operation, so no
code path can produce a second instance. -/
theorem getInstance_unique :
    (∀ n : Nat, instanceReturnedAt n = ⟨"dark", 0⟩) ∧
    (∀ n m : Nat, instanceReturnedAt n = instanceReturnedAt m) ∧
    (∀ n : Nat, (singletonStates n).allocations ≤ 1) := by
  have hret : ∀ n : Nat, instanceReturnedAt n = ⟨"dark", 0⟩ := by
    intro n
    cases n with
    | zero => rfl
    | succ m =>
        unfold instanceReturnedAt
        rw [singletonStates_stable (m + 1) (by omega)]
        rfl
  refine ⟨hret, fun n m => by rw [hret n, hret m], fun n => ?_⟩
  cases n with
  | zero => decide
  | succ m =>
      rw [singletonStates_stable (m + 1) (by omega)]

/-- C7: `ButtonFactory.createButton(os)` returns an `IOSButton` exactly
when `os` equals `'ios'`, returns an `AndroidButton` (the default branch)
for every other discriminator, and always returns one of the two products,
never `null`. -/
theorem createButton_discriminator (os : String) :
    (ButtonFactory.createButton os = Button.IOSButton ↔ os = "ios") ∧
    (os ≠ "ios" → ButtonFactory.createButton os = Button.AndroidButton) ∧
    (ButtonFactory.createButton os = Button.IOSButton ∨
      ButtonFactory.createButton os = Button.AndroidButton) := by
  by_cases h : os = "ios"
  · subst h
    exact ⟨by simp [ButtonFactory.createButton], fun hn => absurd rfl hn,
      Or.inl rfl⟩
  · refine ⟨?_, fun _ => ?_, ?_⟩
    · simp [ButtonFactory.createButton, h]
    · simp [ButtonFactory.createButton, h]
    · right
      simp [ButtonFactory.createButton, h]

/-- Witness for C7: the unrecognized discriminator "android" falls to the
default branch. -/
theorem createButton_discriminator_witness :
    ("android" ≠ "ios") ∧ ButtonFactory.createButton "android" = Button.AndroidButton :=
  ⟨by decide, (createButton_discriminator "android").2.1 (by decide)⟩

/-- C8: `templateMethod()` runs its seven steps in the fixed order
baseOperation1, requiredOperations1, baseOperation2, hook1,
requiredOperation2, baseOperation3, hook2: the transcripts of
`ConcreteClass1` (which overrides only the required steps) and
`ConcreteClass2` carry the three base-step lines in the same skeleton
positions, interleaved identically with the overridden-step outputs, and
in EVERY concrete subclass the three base-step lines occur in that same
fixed relative order. -/
theorem templateMethod_fixed_order :
    templateMethod ConcreteClass1 =
      ["AbstractClass says: I am doing the bulk of the work",
       "ConcreteClass1 says: Implemented Operation1",
       "AbstractClass says: But I let subclasses override some operations",
       "ConcreteClass1 says: Implemented Operation2",
       "AbstractClass says: But I am doing the bulk of the work anyway"] ∧
    templateMethod ConcreteClass2 =
      ["AbstractClass says: I am doing the bulk of the work",
       "ConcreteClass2 says: Implemented Operation1",
       "AbstractClass says: But I let subclasses override some operations",
       "ConcreteClass2 says: Overridden Hook1",
       "ConcreteClass2 says: Implemented Operation2",
       "AbstractClass says: But I am doing the bulk of the work anyway"] ∧
    ∀ c : AbstractClass,
      (baseOperation1 ++ baseOperation2 ++ baseOperation3).Sublist (templateMethod c) := by
  refine ⟨rfl, rfl, fun c => ?_⟩
  simp only [templateMethod, baseOperation1, baseOperation2, baseOperation3,
    List.append_assoc, List.cons_append, List.nil_append]
  refine List.Sublist.cons₂ _ ?_
  refine List.Sublist.trans ?_ (List.sublist_append_right c.requiredOperations1 _)
  refine List.Sublist.cons₂ _ ?_
  refine List.Sublist.trans ?_ (List.sublist_append_right c.hook1 _)
  refine List.Sublist.trans ?_ (List.sublist_append_right c.requiredOperation2 _)
  exact List.Sublist.cons₂ _ (List.nil_sublist _)

end DesignPatterns
